import Mathlib

/-!
Shallow embedding of `src/captscreen.py` (class `ScreenRecorder`).

The Python program is a screen recorder: `start_recording` opens a video
writer at a timestamped path and spawns `_record_loop` on a background
thread; the loop checks an optional duration limit, grabs a BGRA frame,
converts it to BGR, writes it to the video writer, and sleeps; and
`stop_recording` clears the `recording` flag, releases the writer and
reports the elapsed time.

Modelling decisions:
* Wall-clock time is an exact rational (`Rat`); `time.time()` values are
  supplied explicitly to each operation.
* The background loop is modelled single-threadedly as a recursion over a
  finite script of `(now, grabbedFrame)` pairs, one pair per iteration of
  the `while self.recording` loop; the real loop runs until stopped, the
  script is a finite observation window of it.
* Side effects (warning print, writer open/write/release, the final report)
  are recorded in an explicit event trace returned next to the new state.
* A frame is a list of pixels; a BGRA pixel is four channel values, and
  `cv2.cvtColor(..., COLOR_BGRA2BGR)` is the per-pixel drop of the fourth
  channel.
* `datetime.now().strftime` is modelled on a calendar record `PyDateTime`
  with the zero-padding the program's target platform uses (`%Y` four
  digits, the rest two).
-/

/-- One BGRA pixel as produced by `mss`: blue, green, red, alpha. -/
structure Pix4 where
  b : Nat
  g : Nat
  r : Nat
  a : Nat
deriving DecidableEq, Repr

/-- One BGR pixel as expected by `cv2.VideoWriter.write`. -/
structure Pix3 where
  b : Nat
  g : Nat
  r : Nat
deriving DecidableEq, Repr

/-- A captured frame: the pixel buffer returned by `sct.grab`. -/
abbrev Frame4 := List Pix4

/-- An encoded frame: the buffer passed to the video writer. -/
abbrev Frame3 := List Pix3

/-- Embeds `cv2.cvtColor(frame, cv2.COLOR_BGRA2BGR)`: drop the fourth
channel of every pixel, keeping pixel order. -/
def cvtColor_BGRA2BGR (f : Frame4) : Frame3 :=
  f.map fun p => ⟨p.b, p.g, p.r⟩

/-- Calendar form of one wall-clock instant, the fields `datetime.now()`
exposes to `strftime("%Y-%m-%d_%H-%M-%S")`. -/
structure PyDateTime where
  year : Nat
  month : Nat
  day : Nat
  hour : Nat
  minute : Nat
  second : Nat
deriving DecidableEq, Repr

/-- The decimal digit character for `n`, for `n < 10` (other inputs give a
placeholder, never reached by the padded formatters below). -/
def digitChar : Nat → Char
  | 0 => '0'
  | 1 => '1'
  | 2 => '2'
  | 3 => '3'
  | 4 => '4'
  | 5 => '5'
  | 6 => '6'
  | 7 => '7'
  | 8 => '8'
  | 9 => '9'
  | _ => '?'

/-- Zero-padded two-digit decimal rendering, as `strftime` does for
`%m %d %H %M %S`. -/
def pad2 (n : Nat) : List Char :=
  [digitChar (n / 10 % 10), digitChar (n % 10)]

/-- Zero-padded four-digit decimal rendering of the year, as `strftime`
does for `%Y` on the program's target platform. -/
def pad4 (n : Nat) : List Char :=
  [digitChar (n / 1000 % 10), digitChar (n / 100 % 10),
   digitChar (n / 10 % 10), digitChar (n % 10)]

/-- Character sequence of the generated file name
`recording_YYYY-MM-DD_HH-MM-SS.mp4`. -/
def filenameChars (dt : PyDateTime) : List Char :=
  "recording_".data ++ pad4 dt.year ++ ['-'] ++ pad2 dt.month ++ ['-'] ++
    pad2 dt.day ++ ['_'] ++ pad2 dt.hour ++ ['-'] ++ pad2 dt.minute ++
    ['-'] ++ pad2 dt.second ++ ".mp4".data

/-- Embeds `ScreenRecorder.get_output_filename`: the f-string
`recording_{timestamp}.mp4` with `timestamp` the `strftime` rendering of
the current wall-clock instant. -/
def get_output_filename (dt : PyDateTime) : String :=
  ⟨filenameChars dt⟩

/-- Observable side effects of the recorder, in program order. -/
inductive Event where
  /-- The warning print in `start_recording` when already recording. -/
  | warnAlready : Event
  /-- The `cv2.VideoWriter(...)` construction: output path and frame size. -/
  | sinkOpen : String → Nat → Nat → Event
  /-- The capture `sct.grab(monitor)` of one frame. -/
  | grab : Frame4 → Event
  /-- One `self.writer.write(frame)` call. -/
  | sinkWrite : Frame3 → Event
  /-- The assignment `self.recording = False` in `stop_recording`. -/
  | setStopped : Event
  /-- The `self.writer.release()` call. -/
  | sinkRelease : Event
  /-- The assignment `self.writer = None`. -/
  | clearHandle : Event
  /-- The final report print: output path and total elapsed seconds. -/
  | reportStopped : Option String → Rat → Event
deriving DecidableEq, Repr

/-- The mutable state of one `ScreenRecorder` object. `writer` holds
`some ()` while the video-writer handle is live; the frames it receives
are tracked in the event trace. -/
structure RecState where
  recording : Bool
  paused : Bool
  writer : Option Unit
  start_time : Option Rat
  duration : Int
  output_file : Option String
  width : Option Nat
  height : Option Nat
deriving DecidableEq, Repr

/-- State built by `ScreenRecorder.__init__`. -/
def initRecorder : RecState :=
  { recording := false, paused := false, writer := none, start_time := none,
    duration := 0, output_file := none, width := none, height := none }

/-- Embeds `ScreenRecorder.start_recording(duration_minutes)`. `now` is the
value of `time.time()`, `dt` the same instant as seen by `datetime.now()`,
and `w`, `h` the primary monitor size reported by `mss`. Returns the new
state and the event trace. -/
def start_recording (s : RecState) (now : Rat) (dt : PyDateTime)
    (w h : Nat) (duration_minutes : Int) : RecState × List Event :=
  if s.recording then
    (s, [Event.warnAlready])
  else
    let duration : Int :=
      if duration_minutes > 0 then duration_minutes * 60 else 0
    let output := get_output_filename dt
    ({ s with
        duration := duration
        output_file := some output
        width := some w
        height := some h
        writer := some ()
        recording := true
        start_time := some now },
     [Event.sinkOpen output w h])

/-- Elapsed time computed in `stop_recording`:
`time.time() - self.start_time if self.start_time else 0`. Python
truthiness makes both `None` and `0.0` fall to the `else 0` branch. -/
def stopElapsed (start_time : Option Rat) (now : Rat) : Rat :=
  match start_time with
  | some t => if t ≠ 0 then now - t else 0
  | none => 0

/-- Embeds `ScreenRecorder.stop_recording`. If not recording it returns at
once; otherwise it clears the recording flag first, then releases and
clears the writer when one is held, then reports path and elapsed time. -/
def stop_recording (s : RecState) (now : Rat) : RecState × List Event :=
  if s.recording then
    let s1 : RecState := { s with recording := false }
    let s2 : RecState :=
      if s1.writer.isSome then { s1 with writer := none } else s1
    let releaseEv : List Event :=
      if s1.writer.isSome then [Event.sinkRelease, Event.clearHandle] else []
    (s2, Event.setStopped :: releaseEv ++
      [Event.reportStopped s.output_file (stopElapsed s.start_time now)])
  else
    (s, [])

/-- Timer condition checked at the top of each `_record_loop` iteration:
a positive duration limit is set and `time.time() - self.start_time`
has reached it. -/
def timerExpired (s : RecState) (now : Rat) : Prop :=
  0 < s.duration ∧ (s.duration : Rat) ≤ now - s.start_time.getD 0

instance (s : RecState) (now : Rat) : Decidable (timerExpired s now) := by
  unfold timerExpired; infer_instance

/-- Embeds `ScreenRecorder._record_loop`, one script entry per iteration
of `while self.recording`. When the timer has expired the iteration calls
`stop_recording` and breaks; otherwise it grabs the scripted frame,
converts it BGRA→BGR, writes it when a writer is held, and continues. -/
def record_loop : RecState → List (Rat × Frame4) → RecState × List Event
  | s, [] => (s, [])
  | s, (now, fr) :: rest =>
    if s.recording then
      if timerExpired s now then
        stop_recording s now
      else
        let r := record_loop s rest
        (r.1, Event.grab fr ::
          (if s.writer.isSome then [Event.sinkWrite (cvtColor_BGRA2BGR fr)]
           else []) ++ r.2)
    else
      (s, [])

/-- One externally triggerable operation on a recorder instance. -/
inductive Op where
  | start : Rat → PyDateTime → Nat → Nat → Int → Op
  | loopIter : Rat → Frame4 → Op
  | stop : Rat → Op
deriving DecidableEq, Repr

/-- State reached by one operation (events dropped). -/
def applyOp (s : RecState) : Op → RecState
  | Op.start now dt w h d => (start_recording s now dt w h d).1
  | Op.loopIter now fr => (record_loop s [(now, fr)]).1
  | Op.stop now => (stop_recording s now).1

/-- State reached from `s` by a sequence of operations. -/
def runOps (s : RecState) (ops : List Op) : RecState :=
  ops.foldl applyOp s

/-- Discriminator for the `setStopped` event. -/
def Event.isSetStopped : Event → Bool
  | Event.setStopped => true
  | _ => false

/-- Discriminator for capture events. -/
def Event.isGrab : Event → Bool
  | Event.grab _ => true
  | _ => false

/-- Discriminator for writer-release events. -/
def Event.isRelease : Event → Bool
  | Event.sinkRelease => true
  | _ => false

/-- Discriminator for the final stopped report. -/
def Event.isReport : Event → Bool
  | Event.reportStopped _ _ => true
  | _ => false

/-- Frames delivered to the video writer, in trace order. -/
def sinkWrites (evs : List Event) : List Frame3 :=
  evs.filterMap fun e =>
    match e with
    | Event.sinkWrite f => some f
    | _ => none

/-- Frames captured from the screen, in trace order. -/
def grabbedFrames (evs : List Event) : List Frame4 :=
  evs.filterMap fun e =>
    match e with
    | Event.grab f => some f
    | _ => none

/-- Events of a run of loop iterations in which the timer never fires:
one grab per iteration, followed by a write when a writer is held. -/
def iterEvents (s : RecState) : List (Rat × Frame4) → List Event
  | [] => []
  | (_, fr) :: rest =>
      Event.grab fr ::
        (if s.writer.isSome then [Event.sinkWrite (cvtColor_BGRA2BGR fr)]
         else []) ++ iterEvents s rest

lemma record_loop_append_no_timer (s : RecState)
    (script tail : List (Rat × Frame4)) (hrec : s.recording = true)
    (h : ∀ p ∈ script, ¬ timerExpired s p.1) :
    record_loop s (script ++ tail) =
      ((record_loop s tail).1, iterEvents s script ++ (record_loop s tail).2) := by
  induction script with
  | nil => simp [iterEvents]
  | cons hd tl ih =>
      obtain ⟨now, fr⟩ := hd
      have hnot : ¬ timerExpired s now := h _ (List.mem_cons_self _ _)
      have htl : ∀ p ∈ tl, ¬ timerExpired s p.1 :=
        fun p hp => h p (List.mem_cons_of_mem _ hp)
      simp only [List.cons_append, record_loop, hrec, if_true, if_neg hnot,
        List.append_eq, ih htl, iterEvents, List.append_assoc]

lemma record_loop_no_timer (s : RecState) (script : List (Rat × Frame4))
    (hrec : s.recording = true)
    (h : ∀ p ∈ script, ¬ timerExpired s p.1) :
    record_loop s script = (s, iterEvents s script) := by
  have := record_loop_append_no_timer s script [] hrec h
  simpa [record_loop] using this

lemma iterEvents_filter_setStopped (s : RecState)
    (script : List (Rat × Frame4)) :
    (iterEvents s script).filter Event.isSetStopped = [] := by
  induction script with
  | nil => rfl
  | cons hd tl ih =>
      obtain ⟨now, fr⟩ := hd
      by_cases hw : s.writer.isSome <;>
        simp [iterEvents, hw, List.filter_append, ih, Event.isSetStopped]

lemma iterEvents_filter_grab (s : RecState) (script : List (Rat × Frame4)) :
    ((iterEvents s script).filter Event.isGrab).length = script.length := by
  induction script with
  | nil => rfl
  | cons hd tl ih =>
      obtain ⟨now, fr⟩ := hd
      by_cases hw : s.writer.isSome <;>
        simp [iterEvents, hw, List.filter_append, ih, Event.isGrab]

lemma stop_recording_not_recording (s : RecState) (now : Rat)
    (hrec : s.recording = true) :
    (stop_recording s now).1.recording = false := by
  cases hw : s.writer <;> simp [stop_recording, hrec, hw]

lemma stop_recording_filter_setStopped (s : RecState) (now : Rat)
    (hrec : s.recording = true) :
    ((stop_recording s now).2.filter Event.isSetStopped).length = 1 := by
  cases hw : s.writer <;>
    simp [stop_recording, hrec, hw, Event.isSetStopped]

lemma stop_recording_filter_grab (s : RecState) (now : Rat) :
    (stop_recording s now).2.filter Event.isGrab = [] := by
  by_cases hrec : s.recording <;> cases hw : s.writer <;>
    simp [stop_recording, hrec, hw, Event.isGrab]

lemma stop_recording_no_frames (s : RecState) (now : Rat) :
    sinkWrites (stop_recording s now).2 = [] ∧
      grabbedFrames (stop_recording s now).2 = [] := by
  by_cases hrec : s.recording <;> cases hw : s.writer <;>
    simp [stop_recording, hrec, hw, sinkWrites, grabbedFrames]

lemma not_timerExpired_of_zero (s : RecState) (now : Rat)
    (hdur : s.duration = 0) : ¬ timerExpired s now := by
  intro h
  have h1 := h.1
  rw [hdur] at h1
  exact absurd h1 (by norm_num)

lemma record_loop_zero_duration (s : RecState) (script : List (Rat × Frame4))
    (hrec : s.recording = true) (hdur : s.duration = 0) :
    (record_loop s script).1 = s ∧
      (record_loop s script).2.filter Event.isSetStopped = [] := by
  have h := record_loop_no_timer s script hrec
    (fun p _ => not_timerExpired_of_zero s p.1 hdur)
  rw [h]
  exact ⟨rfl, iterEvents_filter_setStopped s script⟩

/-- Sample calendar instant used by concrete witnesses. -/
def dtSample : PyDateTime := ⟨2025, 1, 2, 3, 4, 5⟩

/-- Recorder started at time 0 with no duration limit. -/
def startedUnbounded : RecState :=
  (start_recording initRecorder 0 dtSample 2 2 0).1

/-- Recorder started at time 0 with a one-minute limit. -/
def startedOneMinute : RecState :=
  (start_recording initRecorder 0 dtSample 2 2 1).1

/-- Recorder stopped after an unbounded run. -/
def stoppedSample : RecState := (stop_recording startedUnbounded 1).1

/-- C2: with durationMinutes 0 the sampling loop never invokes stop on its
own — over any script of iterations the recorder stays recording and the
trace holds no stop transition — while an external stop_recording call
does transition it to stopped. -/
theorem unbounded_never_selfstops (s : RecState)
    (hrec : s.recording = true) (hdur : s.duration = 0) :
    (∀ script : List (Rat × Frame4),
      (record_loop s script).1.recording = true ∧
      (record_loop s script).2.filter Event.isSetStopped = []) ∧
    ∀ now : Rat, (stop_recording s now).1.recording = false := by
  constructor
  · intro script
    have h := record_loop_zero_duration s script hrec hdur
    exact ⟨by rw [h.1]; exact hrec, h.2⟩
  · intro now
    exact stop_recording_not_recording s now hrec

/-- Witness for `unbounded_never_selfstops` at a concretely started
recorder. -/
theorem unbounded_never_selfstops_witness :
    (record_loop startedUnbounded [(5, [])]).1.recording = true ∧
    (stop_recording startedUnbounded 9).1.recording = false :=
  ⟨((unbounded_never_selfstops startedUnbounded (by decide) (by decide)).1
      [(5, [])]).1,
   (unbounded_never_selfstops startedUnbounded (by decide) (by decide)).2 9⟩

/-- C3: stopping twice releases the writer exactly once and reports the
stopped event exactly once; the second call returns the state unchanged
with an empty trace. -/
theorem stop_idempotent (s : RecState) (now1 now2 : Rat)
    (hrec : s.recording = true) (hw : s.writer = some ()) :
    (((stop_recording s now1).2 ++
        (stop_recording (stop_recording s now1).1 now2).2).filter
        Event.isRelease).length = 1 ∧
    (((stop_recording s now1).2 ++
        (stop_recording (stop_recording s now1).1 now2).2).filter
        Event.isReport).length = 1 ∧
    stop_recording (stop_recording s now1).1 now2 =
      ((stop_recording s now1).1, []) := by
  simp [stop_recording, hrec, hw, Event.isRelease, Event.isReport]

/-- Witness for `stop_idempotent` at a concretely started recorder. -/
theorem stop_idempotent_witness :
    (((stop_recording startedUnbounded 2).2 ++
        (stop_recording (stop_recording startedUnbounded 2).1 3).2).filter
        Event.isRelease).length = 1 ∧
    (((stop_recording startedUnbounded 2).2 ++
        (stop_recording (stop_recording startedUnbounded 2).1 3).2).filter
        Event.isReport).length = 1 ∧
    stop_recording (stop_recording startedUnbounded 2).1 3 =
      ((stop_recording startedUnbounded 2).1, []) :=
  stop_idempotent startedUnbounded 2 3 (by decide) (by decide)

/-- C4: starting while already recording emits the warning and leaves the
state identical — outputPath, startedAt, duration, dimensions and writer
included — and opens no new file. -/
theorem start_guard_noop (s : RecState) (now : Rat) (dt : PyDateTime)
    (w h : Nat) (d : Int) (hrec : s.recording = true) :
    start_recording s now dt w h d = (s, [Event.warnAlready]) := by
  simp [start_recording, hrec]

/-- Witness for `start_guard_noop` at a concretely started recorder. -/
theorem start_guard_noop_witness :
    start_recording startedUnbounded 7 dtSample 3 3 5 =
      (startedUnbounded, [Event.warnAlready]) :=
  start_guard_noop startedUnbounded 7 dtSample 3 3 5 (by decide)

/-- C6 counterexample: on the same recorder instance, start then stop
reaches the stopped state, and a further start_recording call returns the
very same instance to recording — so stopped is not terminal for the
instance under all operations. -/
theorem stopped_reentry_cex :
    (runOps initRecorder [Op.start 0 dtSample 2 2 0, Op.stop 1]).recording
      = false ∧
    (runOps initRecorder
      [Op.start 0 dtSample 2 2 0, Op.stop 1,
       Op.start 2 dtSample 2 2 0]).recording = true := by
  decide

/-- C6 amended: once stopped, loop iterations and further stop calls never
return the instance to recording (they leave it unchanged); only a fresh
start_recording call does, and that call starts recording anew with an
output path regenerated from the clock at that call. -/
theorem stopped_terminal_amended (s : RecState) (hrec : s.recording = false) :
    (∀ script : List (Rat × Frame4), record_loop s script = (s, [])) ∧
    (∀ now : Rat, stop_recording s now = (s, [])) ∧
    ∀ (now : Rat) (dt : PyDateTime) (w h : Nat) (d : Int),
      (start_recording s now dt w h d).1.recording = true ∧
      (start_recording s now dt w h d).1.output_file =
        some (get_output_filename dt) := by
  refine ⟨?_, ?_, ?_⟩
  · intro script
    cases script <;> simp [record_loop, hrec]
  · intro now
    simp [stop_recording, hrec]
  · intro now dt w h d
    simp [start_recording, hrec]

/-- Witness for `stopped_terminal_amended` at a concretely stopped
recorder. -/
theorem stopped_terminal_amended_witness :
    record_loop stoppedSample [(2, [])] = (stoppedSample, []) ∧
    stop_recording stoppedSample 3 = (stoppedSample, []) ∧
    (start_recording stoppedSample 4 dtSample 2 2 0).1.recording = true :=
  ⟨(stopped_terminal_amended stoppedSample (by decide)).1 [(2, [])],
   (stopped_terminal_amended stoppedSample (by decide)).2.1 3,
   ((stopped_terminal_amended stoppedSample (by decide)).2.2 4 dtSample 2 2 0).1⟩

/-- C7: on a recording session holding a writer, stop_recording produces
exactly the trace whose first action clears the recording flag, and only
after that releases the writer, clears the handle and reports path and
total elapsed time, each exactly once. -/
theorem stop_sets_flag_first (s : RecState) (now : Rat)
    (hrec : s.recording = true) (hw : s.writer = some ()) :
    stop_recording s now =
      ({ s with recording := false, writer := none },
       [Event.setStopped, Event.sinkRelease, Event.clearHandle,
        Event.reportStopped s.output_file (stopElapsed s.start_time now)]) := by
  simp [stop_recording, hrec, hw]

/-- Witness for `stop_sets_flag_first` at a concretely started recorder. -/
theorem stop_sets_flag_first_witness :
    stop_recording startedUnbounded 5 =
      ({ startedUnbounded with recording := false, writer := none },
       [Event.setStopped, Event.sinkRelease, Event.clearHandle,
        Event.reportStopped startedUnbounded.output_file
          (stopElapsed startedUnbounded.start_time 5)]) :=
  stop_sets_flag_first startedUnbounded 5 (by decide) (by decide)

/-- C10: a non-positive durationMinutes, negative included, yields the
same start as durationMinutes 0 — the stored limit is 0 — and the started
session never self-terminates by timer. -/
theorem nonpositive_duration_unbounded (s : RecState) (now : Rat)
    (dt : PyDateTime) (w h : Nat) (d : Int)
    (hrec : s.recording = false) (hd : d ≤ 0) :
    start_recording s now dt w h d = start_recording s now dt w h 0 ∧
    (start_recording s now dt w h d).1.duration = 0 ∧
    ∀ script : List (Rat × Frame4),
      (record_loop (start_recording s now dt w h d).1 script).1.recording
        = true ∧
      (record_loop (start_recording s now dt w h d).1 script).2.filter
        Event.isSetStopped = [] := by
  have hd' : ¬ (d > 0) := by omega
  have h0 : (start_recording s now dt w h d).1.recording = true := by
    simp [start_recording, hrec, hd']
  have h1 : (start_recording s now dt w h d).1.duration = 0 := by
    simp [start_recording, hrec, hd']
  refine ⟨?_, h1, ?_⟩
  · simp [start_recording, hrec, hd']
  · intro script
    have h2 := record_loop_zero_duration _ script h0 h1
    exact ⟨by rw [h2.1]; exact h0, h2.2⟩

/-- Witness for `nonpositive_duration_unbounded` at durationMinutes -3. -/
theorem nonpositive_duration_unbounded_witness :
    start_recording initRecorder 0 dtSample 2 2 (-3) =
      start_recording initRecorder 0 dtSample 2 2 0 ∧
    (record_loop (start_recording initRecorder 0 dtSample 2 2 (-3)).1
      [(7, [])]).1.recording = true :=
  ⟨(nonpositive_duration_unbounded initRecorder 0 dtSample 2 2 (-3)
      (by decide) (by decide)).1,
   ((nonpositive_duration_unbounded initRecorder 0 dtSample 2 2 (-3)
      (by decide) (by decide)).2.2 [(7, [])]).1⟩

/-- C1: with a positive duration limit, a run of iterations all strictly
below the limit leaves the session recording with no stop in the trace,
and the first iteration whose clock reaches startedAt plus the limit
invokes stop: the session ends stopped with exactly one stop transition,
and no frame is grabbed at or after the triggering iteration. -/
theorem timer_autostop_exact (s : RecState) (t0 : Rat)
    (pre : List (Rat × Frame4)) (now : Rat) (fr : Frame4)
    (rest : List (Rat × Frame4))
    (hrec : s.recording = true) (hdur : 0 < s.duration)
    (hst : s.start_time = some t0)
    (hpre : ∀ p ∈ pre, p.1 - t0 < (s.duration : Rat))
    (hnow : (s.duration : Rat) ≤ now - t0) :
    (record_loop s pre).1 = s ∧
    (record_loop s pre).2.filter Event.isSetStopped = [] ∧
    (record_loop s (pre ++ (now, fr) :: rest)).1.recording = false ∧
    ((record_loop s (pre ++ (now, fr) :: rest)).2.filter
      Event.isSetStopped).length = 1 ∧
    ((record_loop s (pre ++ (now, fr) :: rest)).2.filter
      Event.isGrab).length = pre.length := by
  have hgetD : s.start_time.getD 0 = t0 := by rw [hst]; rfl
  have hnt : ∀ p ∈ pre, ¬ timerExpired s p.1 := by
    intro p hp hT
    obtain ⟨hT1, hT2⟩ := hT
    rw [hgetD] at hT2
    exact absurd hT2 (not_le.mpr (hpre p hp))
  have hT : timerExpired s now := ⟨hdur, by rw [hgetD]; exact hnow⟩
  have hpreRun := record_loop_no_timer s pre hrec hnt
  have htail : record_loop s ((now, fr) :: rest) = stop_recording s now := by
    simp [record_loop, hrec, hT]
  have happ := record_loop_append_no_timer s pre ((now, fr) :: rest) hrec hnt
  refine ⟨by rw [hpreRun], by rw [hpreRun]; exact iterEvents_filter_setStopped _ _,
    ?_, ?_, ?_⟩
  · rw [happ]
    simp only
    rw [htail]
    exact stop_recording_not_recording s now hrec
  · rw [happ]
    simp only [List.filter_append, List.length_append,
      iterEvents_filter_setStopped, List.length_nil, htail,
      stop_recording_filter_setStopped s now hrec]
  · rw [happ]
    simp only [List.filter_append, List.length_append,
      iterEvents_filter_grab, htail, stop_recording_filter_grab,
      List.length_nil, Nat.add_zero]

/-- Witness for `timer_autostop_exact`: a one-minute session with a clock
at 59.9 seconds has not stopped; at exactly 60 seconds it stops. -/
theorem timer_autostop_exact_witness :
    (record_loop startedOneMinute [(mkRat 599 10, [])]).1 = startedOneMinute ∧
    (record_loop startedOneMinute [(mkRat 599 10, [])]).2.filter
      Event.isSetStopped = [] ∧
    (record_loop startedOneMinute
      [(mkRat 599 10, []), (60, [])]).1.recording = false ∧
    ((record_loop startedOneMinute
      [(mkRat 599 10, []), (60, [])]).2.filter Event.isSetStopped).length = 1 ∧
    ((record_loop startedOneMinute
      [(mkRat 599 10, []), (60, [])]).2.filter Event.isGrab).length =
      [((mkRat 599 10 : Rat), ([] : Frame4))].length :=
  timer_autostop_exact startedOneMinute 0 [(mkRat 599 10, [])] 60 [] []
    (by decide) (by decide) (by decide)
    (by
      intro p hp
      rw [List.mem_singleton] at hp
      subst hp
      show mkRat 599 10 - 0 < ((60 : Int) : Rat)
      norm_num [Rat.mkRat_eq_div])
    (by
      show ((60 : Int) : Rat) ≤ 60 - 0
      norm_num)

/-- C5: over any loop execution, the writer receives exactly the captured
frames, in capture order, no drops and no duplicates, each converted by the
pure per-pixel drop of the fourth channel. -/
theorem frames_in_order (s : RecState) (script : List (Rat × Frame4))
    (hw : s.writer = some ()) :
    sinkWrites (record_loop s script).2 =
      (grabbedFrames (record_loop s script).2).map cvtColor_BGRA2BGR ∧
    ∀ f : Frame4, cvtColor_BGRA2BGR f = f.map fun p => ⟨p.b, p.g, p.r⟩ := by
  refine ⟨?_, fun f => rfl⟩
  induction script with
  | nil => rfl
  | cons hd tl ih =>
      obtain ⟨now, fr⟩ := hd
      by_cases hrec : s.recording
      · by_cases ht : timerExpired s now
        · have h := stop_recording_no_frames s now
          simp [record_loop, hrec, ht, h.1, h.2]
        · simp [record_loop, hrec, ht, hw, sinkWrites, grabbedFrames] at ih ⊢
          exact ih
      · simp [record_loop, hrec, sinkWrites, grabbedFrames]

/-- Witness for `frames_in_order` on a started recorder and a two-frame
script. -/
theorem frames_in_order_witness :
    sinkWrites (record_loop startedUnbounded
      [(1, [⟨1, 2, 3, 4⟩]), (2, [⟨5, 6, 7, 8⟩])]).2 =
      (grabbedFrames (record_loop startedUnbounded
        [(1, [⟨1, 2, 3, 4⟩]), (2, [⟨5, 6, 7, 8⟩])]).2).map cvtColor_BGRA2BGR ∧
    ∀ f : Frame4, cvtColor_BGRA2BGR f = f.map fun p => ⟨p.b, p.g, p.r⟩ :=
  frames_in_order startedUnbounded
    [(1, [⟨1, 2, 3, 4⟩]), (2, [⟨5, 6, 7, 8⟩])] (by decide)

/-- Boolean test for the regular-expression digit class. -/
def isDigit (c : Char) : Bool :=
  decide ('0' ≤ c) && decide (c ≤ '9')

/-- Decides whether a character sequence matches the pattern
recording_ then four digits, dash, two digits, dash, two digits,
underscore, two digits, dash, two digits, dash, two digits, then .mp4. -/
def matchPattern : List Char → Bool
  | 'r' :: 'e' :: 'c' :: 'o' :: 'r' :: 'd' :: 'i' :: 'n' :: 'g' :: '_' ::
    y1 :: y2 :: y3 :: y4 :: '-' :: m1 :: m2 :: '-' :: d1 :: d2 :: '_' ::
    h1 :: h2 :: '-' :: n1 :: n2 :: '-' :: s1 :: s2 :: '.' :: 'm' :: 'p' ::
    '4' :: [] =>
      isDigit y1 && isDigit y2 && isDigit y3 && isDigit y4 &&
      isDigit m1 && isDigit m2 && isDigit d1 && isDigit d2 &&
      isDigit h1 && isDigit h2 && isDigit n1 && isDigit n2 &&
      isDigit s1 && isDigit s2
  | _ => false

lemma isDigit_digitChar (n : Nat) (h : n < 10) :
    isDigit (digitChar n) = true := by
  interval_cases n <;> rfl

lemma isDigit_digitChar_mod (n : Nat) :
    isDigit (digitChar (n % 10)) = true :=
  isDigit_digitChar _ (Nat.mod_lt _ (by norm_num))

lemma matchPattern_shape (y1 y2 y3 y4 m1 m2 d1 d2 h1 h2 n1 n2 s1 s2 : Char) :
    matchPattern ("recording_".data ++ [y1, y2, y3, y4] ++ ['-'] ++
        [m1, m2] ++ ['-'] ++ [d1, d2] ++ ['_'] ++ [h1, h2] ++ ['-'] ++
        [n1, n2] ++ ['-'] ++ [s1, s2] ++ ".mp4".data) =
      (isDigit y1 && isDigit y2 && isDigit y3 && isDigit y4 &&
       isDigit m1 && isDigit m2 && isDigit d1 && isDigit d2 &&
       isDigit h1 && isDigit h2 && isDigit n1 && isDigit n2 &&
       isDigit s1 && isDigit s2) := rfl

/-- C8: for every wall-clock instant, the generated output filename
matches the pattern recording_ four digits - two digits - two digits _
two digits - two digits - two digits .mp4. -/
theorem filename_always_matches (dt : PyDateTime) :
    matchPattern (get_output_filename dt).data = true := by
  show matchPattern (filenameChars dt) = true
  simp only [filenameChars, pad4, pad2]
  rw [matchPattern_shape]
  simp [isDigit_digitChar_mod]

lemma applyOp_paused (s : RecState) (op : Op) :
    (applyOp s op).paused = s.paused := by
  cases op with
  | start now dt w h d =>
      by_cases hrec : s.recording <;> simp [applyOp, start_recording, hrec]
  | loopIter now fr =>
      by_cases hrec : s.recording
      · by_cases ht : timerExpired s now
        · by_cases hw : s.writer.isSome <;>
            simp [applyOp, record_loop, stop_recording, hrec, ht, hw]
        · simp [applyOp, record_loop, hrec, ht]
      · simp [applyOp, record_loop, hrec]
  | stop now =>
      by_cases hrec : s.recording
      · by_cases hw : s.writer.isSome <;>
          simp [applyOp, stop_recording, hrec, hw]
      · simp [applyOp, stop_recording, hrec]

lemma applyOp_paused_indep (s : RecState) (op : Op) (b : Bool) :
    applyOp { s with paused := b } op = { applyOp s op with paused := b } := by
  obtain ⟨rec, ps, wr, st, du, outf, wd, hg⟩ := s
  cases op with
  | start now dt w h d =>
      cases rec <;> simp [applyOp, start_recording]
  | loopIter now fr =>
      cases rec
      · simp [applyOp, record_loop]
      · by_cases hc : timerExpired ⟨true, ps, wr, st, du, outf, wd, hg⟩ now
        · have hcb : timerExpired ⟨true, b, wr, st, du, outf, wd, hg⟩ now := hc
          cases wr <;>
            simp [applyOp, record_loop, stop_recording, hc, hcb]
        · have hcb : ¬ timerExpired ⟨true, b, wr, st, du, outf, wd, hg⟩ now :=
            hc
          cases wr <;> simp [applyOp, record_loop, hc, hcb]
  | stop now =>
      cases rec
      · simp [applyOp, stop_recording]
      · cases wr <;> simp [applyOp, stop_recording]

/-- C9: in every state reachable from the freshly constructed recorder by
any sequence of start, loop-iteration and stop operations the paused flag
is false; moreover every operation preserves the flag on every state and
its result does not depend on it. -/
theorem paused_never_set :
    (∀ ops : List Op, (runOps initRecorder ops).paused = false) ∧
    ∀ (s : RecState) (op : Op) (b : Bool),
      (applyOp s op).paused = s.paused ∧
      applyOp { s with paused := b } op = { applyOp s op with paused := b } := by
  constructor
  · have key : ∀ (ops : List Op) (s : RecState),
        (runOps s ops).paused = s.paused := by
      intro ops
      induction ops with
      | nil => intro s; rfl
      | cons op tl ih =>
          intro s
          have h : runOps s (op :: tl) = runOps (applyOp s op) tl := rfl
          rw [h, ih, applyOp_paused]
    intro ops
    rw [key]
    rfl
  · intro s op b
    exact ⟨applyOp_paused s op, applyOp_paused_indep s op b⟩
